/-
Verification of the FSEpub browser-automation core (src/browser_automation.py)
against its natural-language specification.

The Python source is shallowly embedded as pure Lean functions.  Side effects
(Playwright calls, registry access, subprocess control, logging, sleeping) are
modelled by explicit environment parameters and by event traces; exceptions are
modelled with Except/Option.  Machine details that the claims do not touch
(exact Italian log strings containing quote characters, Unicode case folding
beyond ASCII) are noted at the definition concerned.
-/
import Mathlib

namespace FSEpub

/-! ## Generic string helpers

Python `needle in haystack` substring test, `str.upper`, `str.strip` are
modelled on ASCII (the keyword constants involved are all ASCII). -/

/-- Boolean substring test on character lists: true iff `needle` occurs
contiguously inside `hay` (Python `needle in hay`). -/
def listContainsSub (hay needle : List Char) : Bool :=
  match hay with
  | [] => needle.isEmpty
  | _ :: t => needle.isPrefixOf hay || listContainsSub t needle

/-- Python `needle in hay` for strings. -/
def containsSub (hay needle : String) : Bool :=
  listContainsSub hay.data needle.data

/-- Python `str.upper`, restricted to ASCII case mapping (the keyword
constants compared against are ASCII).  Implemented on the character list so
that it evaluates inside the kernel. -/
def strUpper (s : String) : String := String.mk (s.data.map Char.toUpper)

/-- Python `str.strip` with no argument: drop leading and trailing
whitespace.  Implemented on the character list so that it evaluates inside
the kernel. -/
def strTrim (s : String) : String :=
  String.mk (((s.data.dropWhile Char.isWhitespace).reverse.dropWhile
    Char.isWhitespace).reverse)

/-- Python `str.startswith`. -/
def strStartsWith (s pre : String) : Bool :=
  pre.data.isPrefixOf s.data

/-! ## Document-type allow-list (src/browser_automation.py lines 20, 35-44) -/

/-- Embeds DEFAULT_ALLOWED_TYPES.  The Python value is a set; it is only ever
consumed by membership-style iteration, so a duplicate-free list is a faithful
model. -/
def DEFAULT_ALLOWED_TYPES : List String :=
  ["REFERTO", "LETTERA DIMISSIONE", "VERBALE PRONTO SOCCORSO"]

/-- Embeds _is_tipologia_valida (lines 35-44): iterate over the allow-list;
the generic entry REFERTO accepts by prefix, every other entry by equality on
the stripped upper-cased text. -/
def is_tipologia_valida (tipologia : String) (allowed_types : Option (List String)) : Bool :=
  let types := allowed_types.getD DEFAULT_ALLOWED_TYPES
  let upper := strUpper (strTrim tipologia)
  types.any fun t =>
    if t = "REFERTO" then strStartsWith upper "REFERTO" else upper = t

/-! ## Table date parsing (src/browser_automation.py lines 47-54)

_parse_table_date tries datetime.strptime with the formats
"%d/%m/%Y %H:%M:%S", "%d/%m/%Y %H:%M", "%d/%m/%Y" in that order and returns
the date part, or None when every format fails.  CPython strptime compiles a
directive into a regex: %d matches a two-digit value 01..31 or a single digit
1..9; %m two digits 01..12 or a single digit 1..9; %Y exactly four digits;
%H two digits 00..23 or one digit; %M and %S two digits 00..59 or one digit;
literal characters match themselves, a whitespace run in the format matches one
or more whitespace characters; the whole (stripped) input must be consumed;
finally the datetime constructor validates the day against the month length.
The model below reproduces exactly that. -/

/-- Calendar date as produced by datetime.date; ordered lexicographically by
(year, month, day) like Python date objects. -/
structure PDate where
  year : Nat
  month : Nat
  day : Nat
deriving DecidableEq, Repr

/-- Python strict `<` on dates: lexicographic on (year, month, day). -/
def PDate.blt (a b : PDate) : Bool :=
  a.year < b.year ||
    (a.year = b.year && (a.month < b.month ||
      (a.month = b.month && a.day < b.day)))

/-- Python strict `>` on dates. -/
def PDate.bgt (a b : PDate) : Bool := PDate.blt b a

/-- Python non-strict `<=` on dates. -/
def PDate.ble (a b : PDate) : Bool := !(PDate.blt b a)

/-- Numeric value of a decimal digit character. -/
def digitVal (c : Char) : Nat := c.toNat - 48

/-- Matches a strptime numeric directive: prefer a two-digit match whose value
lies in [twoLo, twoHi], else a single digit whose value lies in [oneLo, 9],
mirroring the regex alternation order used by CPython _strptime. -/
def takeNum2 (twoLo twoHi oneLo : Nat) : List Char → Option (Nat × List Char)
  | c1 :: c2 :: rest =>
    if c1.isDigit && c2.isDigit &&
        twoLo ≤ digitVal c1 * 10 + digitVal c2 && digitVal c1 * 10 + digitVal c2 ≤ twoHi then
      some (digitVal c1 * 10 + digitVal c2, rest)
    else if c1.isDigit && oneLo ≤ digitVal c1 then
      some (digitVal c1, c2 :: rest)
    else
      none
  | [c1] =>
    if c1.isDigit && oneLo ≤ digitVal c1 then some (digitVal c1, []) else none
  | [] => none

/-- Matches %Y: exactly four digits. -/
def take4Digits : List Char → Option (Nat × List Char)
  | c1 :: c2 :: c3 :: c4 :: rest =>
    if c1.isDigit && c2.isDigit && c3.isDigit && c4.isDigit then
      some (((digitVal c1 * 10 + digitVal c2) * 10 + digitVal c3) * 10 + digitVal c4, rest)
    else none
  | _ => none

/-- Matches one literal character of the format. -/
def expectChar (c : Char) : List Char → Option (List Char)
  | d :: rest => if d = c then some rest else none
  | [] => none

/-- Matches a whitespace run in the format: one or more whitespace characters
of the input. -/
def skipWs1 : List Char → Option (List Char)
  | c :: rest =>
    if c.isWhitespace then some (skipWsMore rest) else none
  | [] => none
where
  /-- Consumes the remaining whitespace of the run. -/
  skipWsMore : List Char → List Char
    | c :: rest => if c.isWhitespace then skipWsMore rest else c :: rest
    | [] => []

/-- Gregorian leap-year test as used by datetime. -/
def isLeapYear (y : Nat) : Bool :=
  y % 4 = 0 && (y % 100 ≠ 0 || y % 400 = 0)

/-- Length of a month as validated by the datetime constructor. -/
def daysInMonth (y m : Nat) : Nat :=
  if m = 2 then (if isLeapYear y then 29 else 28)
  else if m = 4 || m = 6 || m = 9 || m = 11 then 30
  else 31

/-- Parses the common "%d/%m/%Y" part of all three formats. -/
def parseDMY (cs : List Char) : Option (PDate × List Char) :=
  match takeNum2 1 31 1 cs with
  | none => none
  | some (d, cs) =>
    match expectChar '/' cs with
    | none => none
    | some cs =>
      match takeNum2 1 12 1 cs with
      | none => none
      | some (m, cs) =>
        match expectChar '/' cs with
        | none => none
        | some cs =>
          match take4Digits cs with
          | none => none
          | some (y, cs) => some (⟨y, m, d⟩, cs)

/-- Parses "%H:%M" and, when withSeconds is set, ":%S"; the time fields are
validated and then discarded (the Python code keeps only .date()). -/
def parseTimePart (withSeconds : Bool) (cs : List Char) : Option (List Char) :=
  match takeNum2 0 23 0 cs with
  | none => none
  | some (_, cs) =>
    match expectChar ':' cs with
    | none => none
    | some cs =>
      match takeNum2 0 59 0 cs with
      | none => none
      | some (_, cs) =>
        if withSeconds then
          match expectChar ':' cs with
          | none => none
          | some cs =>
            match takeNum2 0 59 0 cs with
            | none => none
            | some (_, cs) => some cs
        else some cs

/-- Constructor-level validation performed by datetime(year, month, day):
MINYEAR is 1, month and day lower bounds are already enforced by the numeric
directives, the day must fit the month. -/
def validDate (d : PDate) : Bool :=
  1 ≤ d.year && d.day ≤ daysInMonth d.year d.month

/-- Tries one of the three formats on the full character list: the date part,
optionally a whitespace run and a time part, and end of input. -/
def tryFormat (time : Option Bool) (cs : List Char) : Option PDate :=
  match parseDMY cs with
  | none => none
  | some (d, cs) =>
    match time with
    | none => if cs.isEmpty && validDate d then some d else none
    | some withSeconds =>
      match skipWs1 cs with
      | none => none
      | some cs =>
        match parseTimePart withSeconds cs with
        | none => none
        | some cs => if cs.isEmpty && validDate d then some d else none

/-- Embeds _parse_table_date (lines 47-54): strip the text and try the three
formats in source order. -/
def parse_table_date (date_text : String) : Option PDate :=
  let cs := (strTrim date_text).data
  match tryFormat (some true) cs with
  | some d => some d
  | none =>
    match tryFormat (some false) cs with
    | some d => some d
    | none => tryFormat none cs

/-! ## DocumentResult (src/browser_automation.py lines 290-295) -/

/-- Embeds the DocumentResult dataclass.  Paths are modelled as strings. -/
structure DocumentResult where
  disciplina : String
  skipped : Bool
  download_path : Option String
  error : Option String
deriving DecidableEq, Repr

/-- The skipped-row result appended by both processing functions:
DocumentResult(disciplina=tipo_text, skipped=True, download_path=None,
error=None). -/
def mkSkippedResult (tipo : String) : DocumentResult :=
  ⟨tipo, true, none, none⟩

/-- The per-patient failure result returned by the except blocks of
process_patient and process_patient_all_dates:
DocumentResult(disciplina="N/A", skipped=False, download_path=None,
error=str(e)). -/
def navErrorResult (e : String) : DocumentResult :=
  ⟨"N/A", false, none, some e⟩

/-! ## Table schema resolution

process_patient (lines 806-814) and process_patient_all_dates (lines 962-972)
scan the header texts with an if/elif chain.  Note the asymmetry in the
source: only the DATA branch carries an "is None" guard, so a later
DATA-containing header cannot displace the date column, while later
TIPOLOGIA / ENTE / STRUTTURA / VISUALIZZA headers overwrite the previously
recorded index. -/

/-- Column indices resolved by process_patient. -/
structure ColsPP where
  dateCol : Option Nat
  tipoCol : Option Nat
  visCol : Option Nat
deriving DecidableEq, Repr

/-- Column indices resolved by process_patient_all_dates. -/
structure ColsAD where
  dateCol : Option Nat
  tipoCol : Option Nat
  enteCol : Option Nat
  visCol : Option Nat
deriving DecidableEq, Repr

/-- One step of the process_patient header chain (lines 807-814). -/
def resolveColsPPStep (idx : Nat) (h : String) (acc : ColsPP) : ColsPP :=
  let hu := strUpper h
  if containsSub hu "DATA" && acc.dateCol.isNone then { acc with dateCol := some idx }
  else if containsSub hu "TIPOLOGIA" then { acc with tipoCol := some idx }
  else if containsSub hu "VISUALIZZA" then { acc with visCol := some idx }
  else acc

/-- Folds the chain over the enumerated header texts. -/
def resolveColsPPAux (idx : Nat) (acc : ColsPP) : List String → ColsPP
  | [] => acc
  | h :: rest => resolveColsPPAux (idx + 1) (resolveColsPPStep idx h acc) rest

/-- Embeds the header-resolution loop of process_patient. -/
def resolveColsPP (headers : List String) : ColsPP :=
  resolveColsPPAux 0 ⟨none, none, none⟩ headers

/-- One step of the process_patient_all_dates header chain (lines 963-972). -/
def resolveColsADStep (idx : Nat) (h : String) (acc : ColsAD) : ColsAD :=
  let hu := strUpper h
  if containsSub hu "DATA" && acc.dateCol.isNone then { acc with dateCol := some idx }
  else if containsSub hu "TIPOLOGIA" then { acc with tipoCol := some idx }
  else if containsSub hu "ENTE" || containsSub hu "STRUTTURA" then { acc with enteCol := some idx }
  else if containsSub hu "VISUALIZZA" then { acc with visCol := some idx }
  else acc

/-- Folds the chain over the enumerated header texts. -/
def resolveColsADAux (idx : Nat) (acc : ColsAD) : List String → ColsAD
  | [] => acc
  | h :: rest => resolveColsADAux (idx + 1) (resolveColsADStep idx h acc) rest

/-- Embeds the header-resolution loop of process_patient_all_dates. -/
def resolveColsAD (headers : List String) : ColsAD :=
  resolveColsADAux 0 ⟨none, none, none, none⟩ headers

/-! ## Row extraction

A table data row is its list of td cell texts.  Cell text reads are
inner_text().strip(); reading a resolved column index is modelled with getD
(the rows of interest carry a cell for every resolved column). -/

/-- A scraped data row: the texts of its td cells. -/
structure Row where
  cells : List String
deriving DecidableEq, Repr

/-- Transient per-row record built by process_patient:
(row index, date text, tipologia text). -/
structure ScanRow where
  idx : Nat
  dateText : String
  tipoText : String
deriving DecidableEq, Repr

/-- Transient per-row record built by process_patient_all_dates:
(row index, date text, tipologia text, ente text). -/
structure InfoRow where
  idx : Nat
  dateText : String
  tipoText : String
  enteText : String
deriving DecidableEq, Repr

/-- Cell text at a column: inner_text().strip(). -/
def cellText (cells : List String) (col : Nat) : String :=
  strTrim (cells.getD col "")

/-- Embeds the row_data extraction loop of process_patient (lines 832-840):
rows with cell_count <= max(date_col or 0, tipo_col or 0) are dropped; note
that in Python (date_col or 0) maps both None and 0 to 0, which coincides with
Option.getD 0. -/
def extractRowDataPP (dateCol : Option Nat) (tipoCol : Nat) : Nat → List Row → List ScanRow
  | _, [] => []
  | i, r :: rest =>
    if r.cells.length ≤ max (dateCol.getD 0) tipoCol then
      extractRowDataPP dateCol tipoCol (i + 1) rest
    else
      { idx := i
        dateText := match dateCol with | some d => cellText r.cells d | none => ""
        tipoText := cellText r.cells tipoCol } :: extractRowDataPP dateCol tipoCol (i + 1) rest

/-- Embeds the row_info extraction loop of process_patient_all_dates
(lines 985-997): only cell_count <= (tipo_col or 0) is guarded. -/
def extractRowInfoAD (dateCol : Option Nat) (tipoCol : Nat) (enteCol : Option Nat) :
    Nat → List Row → List InfoRow
  | _, [] => []
  | i, r :: rest =>
    if r.cells.length ≤ tipoCol then
      extractRowInfoAD dateCol tipoCol enteCol (i + 1) rest
    else
      { idx := i
        dateText := match dateCol with | some d => cellText r.cells d | none => ""
        tipoText := cellText r.cells tipoCol
        enteText := match enteCol with | some e => cellText r.cells e | none => "" }
        :: extractRowInfoAD dateCol tipoCol enteCol (i + 1) rest

/-! ## Most-recent-date scan loop of process_patient (lines 850-869) -/

/-- Embeds the filtering loop: break at the first row whose date text differs
from most_recent_date; append a skipped result for an invalid tipologia;
otherwise download (the download call is the abstract parameter dl, matching
self._download_document(row_idx, tipo_text, ...)). -/
def scanRowsMostRecent (mostRecent : String) (allowed : Option (List String))
    (dl : Nat → String → DocumentResult) : List ScanRow → List DocumentResult
  | [] => []
  | r :: rest =>
    if r.dateText ≠ mostRecent then []
    else if !(is_tipologia_valida r.tipoText allowed) then
      mkSkippedResult r.tipoText :: scanRowsMostRecent mostRecent allowed dl rest
    else
      dl r.idx r.tipoText :: scanRowsMostRecent mostRecent allowed dl rest

/-- Embeds lines 850-869 as a whole: most_recent_date is the first extracted
row's date text, then the scan loop runs over all extracted rows. -/
def processRowsPP (allowed : Option (List String))
    (dl : Nat → String → DocumentResult) : List ScanRow → List DocumentResult
  | [] => []
  | first :: rest => scanRowsMostRecent first.dateText allowed dl (first :: rest)

/-! ## Filter chain of process_patient_all_dates, phase 2 (lines 1003-1045) -/

/-- Embeds the per-row filter decisions of the phase-2 loop: true means the
row goes to rows_to_download, false means a skipped result is appended.
The checks run in source order: tipologia allow-list, then ente substring
(case-insensitive, only when the filter text is non-empty), then the date
range (only when a bound is set, and only when the date text parses). -/
def classifyRowAD (allowed : Option (List String)) (enteFilterUpper : String)
    (dateFrom dateTo : Option PDate) (r : InfoRow) : Bool :=
  if !(is_tipologia_valida r.tipoText allowed) then false
  else if enteFilterUpper ≠ "" && !(containsSub (strUpper r.enteText) enteFilterUpper) then false
  else if dateFrom.isSome || dateTo.isSome then
    match parse_table_date r.dateText with
    | some parsed =>
      if (match dateFrom with | some f => parsed.blt f | none => false) then false
      else if (match dateTo with | some t => parsed.bgt t | none => false) then false
      else true
    | none => true
  else true

/-- Embeds the phase-2 pre-filter loop: returns the skipped results (in row
order) and rows_to_download (in row order). -/
def phase2AD (allowed : Option (List String)) (enteFilterUpper : String)
    (dateFrom dateTo : Option PDate) : List InfoRow → List DocumentResult × List InfoRow
  | [] => ([], [])
  | r :: rest =>
    let (skips, toDL) := phase2AD allowed enteFilterUpper dateFrom dateTo rest
    if classifyRowAD allowed enteFilterUpper dateFrom dateTo r then
      (skips, r :: toDL)
    else
      (mkSkippedResult r.tipoText :: skips, toDL)

/-- Embeds the download loop over rows_to_download (lines 1038-1045): before
each row the stop flag is read (read number k for the k-th row, 0-based); once
observed set, the loop breaks and the remaining rows are abandoned. -/
def downloadLoopAD (stopFlag : Nat → Bool) (dl : Nat → String → DocumentResult) :
    Nat → List InfoRow → List DocumentResult
  | _, [] => []
  | k, r :: rest =>
    if stopFlag k then []
    else dl r.idx r.tipoText :: downloadLoopAD stopFlag dl (k + 1) rest

/-! ## Top-level per-patient functions

process_patient (lines 730-876) and process_patient_all_dates (lines 925-1052)
are driven by the environment: the outcome of the navigation/login phase (the
first try block) and of the table wait/extraction (the second try block) enter
as Except values, downloads as an abstract per-row function, the stop flag as
the value read at each is_set() call.  Side effects that the claims mention
are collected in an event trace. -/

/-- Observable side effects of the per-patient functions. -/
inductive PEvent
  | interruptedLog
  | screenshot (label : String)
  | restarted
deriving DecidableEq, Repr

/-- Message of the RuntimeError raised when no header contains TIPOLOGIA
(lines 817 and 975).  The source text also quotes the word Tipologia and
interpolates the header list; the quotes and the list are elided here. -/
def tipologiaMissingMsg : String :=
  "Colonna Tipologia non trovata nelle intestazioni"

/-- Embeds process_patient.  stop_set is the value read by the single
stop_event.is_set() call at entry (line 734); alive the _is_alive() probe;
nav the outcome of the navigation/login try block (lines 745-794); table the
outcome of locating the referti table and reading its header and row texts
(lines 797-829); dl the per-row _download_document call. -/
def process_patient (patient_name : String) (stop_set alive : Bool)
    (nav : Except String Unit) (table : Except String (List String × List Row))
    (allowed : Option (List String)) (dl : Nat → String → DocumentResult) :
    List DocumentResult × List PEvent :=
  if stop_set then ([], [.interruptedLog])
  else
    let restartEvs : List PEvent := if alive then [] else [.restarted]
    match nav with
    | .error e => ([navErrorResult e], restartEvs ++ [.screenshot patient_name])
    | .ok _ =>
      match table with
      | .error e => ([navErrorResult e], restartEvs ++ [.screenshot patient_name])
      | .ok (headers, rows) =>
        let c := resolveColsPP headers
        match c.tipoCol with
        | none => ([navErrorResult tipologiaMissingMsg], restartEvs ++ [.screenshot patient_name])
        | some tc =>
          (processRowsPP allowed dl (extractRowDataPP c.dateCol tc 0 rows), restartEvs)

/-- Embeds process_patient_all_dates.  stop_set is the entry is_set() read
(line 935); stopFlag the reads performed before each download in the phase-2
loop; nav the outcome of _navigate_and_login (lines 946-951); table the table
wait/read outcome; dl the per-row _download_document call. -/
def process_patient_all_dates (codice_fiscale : String) (stop_set alive : Bool)
    (nav : Except String Unit) (table : Except String (List String × List Row))
    (allowed : Option (List String)) (ente_filter : String)
    (date_from date_to : Option PDate) (stopFlag : Nat → Bool)
    (dl : Nat → String → DocumentResult) : List DocumentResult × List PEvent :=
  if stop_set then ([], [.interruptedLog])
  else
    let restartEvs : List PEvent := if alive then [] else [.restarted]
    match nav with
    | .error e => ([navErrorResult e], restartEvs ++ [.screenshot codice_fiscale])
    | .ok _ =>
      match table with
      | .error e => ([navErrorResult e], restartEvs ++ [.screenshot codice_fiscale])
      | .ok (headers, rows) =>
        let c := resolveColsAD headers
        match c.tipoCol with
        | none => ([navErrorResult tipologiaMissingMsg], restartEvs ++ [.screenshot codice_fiscale])
        | some tc =>
          let rowInfo := extractRowInfoAD c.dateCol tc c.enteCol 0 rows
          let efu := strUpper (strTrim ente_filter)
          let (skips, toDL) := phase2AD allowed efu date_from date_to rowInfo
          (skips ++ downloadLoopAD stopFlag dl 0 toDL, restartEvs)

/-! ## Download engine (_download_document, lines 1054-1119)

The body is a two-iteration for loop; each iteration either returns a
successful DocumentResult or catches the attempt exception.  The attempt
outcomes enter as an environment function (index 0 and 1); the recovery
reload/re-wait and the diagnostic screenshot are traced as events. -/

/-- Outcome of one download attempt: a captured download with its
suggested_filename, or a raised exception with its text. -/
inductive AttemptOutcome
  | ok (suggestedFilename : String)
  | err (msg : String)
deriving DecidableEq, Repr

/-- Observable side effects of _download_document. -/
inductive DlEvent
  | attemptStart (n : Nat)
  | reloadPage
  | rewaitTable
  | screenshot (label : String)
deriving DecidableEq, Repr

/-- Python pathlib suffix of a bare file name: the part from the last dot,
provided that dot is neither the first nor the last character; empty
otherwise. -/
def pathSuffix (name : String) : String :=
  let cs := name.data
  match (cs.reverse.takeWhile (· ≠ '.')).length, cs.contains '.' with
  | tailLen, true =>
    if tailLen = 0 || tailLen + 1 = cs.length then ""
    else String.mk (cs.drop (cs.length - tailLen - 1))
  | _, false => ""

/-- File path produced by a successful attempt (lines 1087-1091):
extension from the suggested filename with .pdf fallback, unique name
patient_rowindex with spaces replaced by underscores, joined under the
configured download directory. -/
def downloadSavePath (downloadDir patientName : String) (rowIndex : Nat)
    (suggestedFilename : String) : String :=
  let sfx := pathSuffix suggestedFilename
  let ext := if sfx = "" then ".pdf" else sfx
  let uniqueName := String.mk ((patientName ++ "_" ++ Nat.repr rowIndex ++ ext).data.map
    fun c => if c = ' ' then '_' else c)
  downloadDir ++ "/" ++ uniqueName

/-- Error text of the result returned when both attempts fail (line 1118). -/
def downloadRetryFailedMsg : String := "Download fallito dopo retry"

/-- Successful result (lines 1096-1098). -/
def downloadOkResult (tipologia path : String) : DocumentResult :=
  ⟨tipologia, false, some path, none⟩

/-- Embeds _download_document.  attempts gives the outcome of each loop
iteration; reloadOk tells whether the recovery page reload itself succeeded
(its failure is swallowed by the inner try, and then the table re-wait is not
reached).  Every exception of the source body is caught inside the function,
which therefore always returns a DocumentResult; this totality is the
never-raises guarantee. -/
def download_document (rowIndex : Nat) (tipologia patientName downloadDir : String)
    (attempts : Nat → AttemptOutcome) (reloadOk : Bool) :
    DocumentResult × List DlEvent :=
  match attempts 0 with
  | .ok fname =>
    (downloadOkResult tipologia (downloadSavePath downloadDir patientName rowIndex fname),
     [.attemptStart 0])
  | .err _ =>
    let recov : List DlEvent := .reloadPage :: (if reloadOk then [.rewaitTable] else [])
    match attempts 1 with
    | .ok fname =>
      (downloadOkResult tipologia (downloadSavePath downloadDir patientName rowIndex fname),
       .attemptStart 0 :: recov ++ [.attemptStart 1])
    | .err _ =>
      (⟨tipologia, false, none, some downloadRetryFailedMsg⟩,
       .attemptStart 0 :: recov ++
         [.attemptStart 1, .screenshot (patientName ++ "_row" ++ Nat.repr (rowIndex + 1))])

/-! ## Session stop (FSEBrowser.stop, lines 581-611)

Each close call sits in its own try/except that swallows the error, so a
failing close never prevents the later ones; the environment records which
close calls raise. -/

/-- Which automation resources the session currently holds, plus the attached
flag. -/
structure SessionState where
  hasPage : Bool
  hasBrowser : Bool
  hasContext : Bool
  hasPlaywright : Bool
  attached : Bool
deriving DecidableEq, Repr

/-- Which close calls raise (the raised error is swallowed either way). -/
structure CloseFailures where
  pageFails : Bool
  browserFails : Bool
  contextFails : Bool
  playwrightFails : Bool
deriving DecidableEq, Repr

/-- The close operations stop() can attempt, in source order.  closeBrowser is
Browser.close() on a CDP-connected handle, which disconnects the automation
client and does not terminate the underlying browser process (source comment,
line 591). -/
inductive StopOp
  | closePage
  | closeBrowser
  | closeContext
  | stopPlaywright
deriving DecidableEq, Repr

/-- An attempted close with its success flag. -/
structure StopEvent where
  op : StopOp
  ok : Bool
deriving DecidableEq, Repr

/-- Embeds stop(): in attached mode close the automation tab then the CDP
handle; otherwise close the launched context; in every mode finally stop the
Playwright handle; every attempt is guarded by presence and its error
swallowed; afterwards all fields are reset. -/
def stopSession (s : SessionState) (f : CloseFailures) :
    List StopEvent × SessionState :=
  let evs :=
    (if s.attached then
      (if s.hasPage then [⟨.closePage, !f.pageFails⟩] else []) ++
      (if s.hasBrowser then [⟨.closeBrowser, !f.browserFails⟩] else [])
    else
      (if s.hasContext then [⟨.closeContext, !f.contextFails⟩] else [])) ++
    (if s.hasPlaywright then [⟨.stopPlaywright, !f.playwrightFails⟩] else [])
  (evs, ⟨false, false, false, false, false⟩)

/-! ## Attach protocol (_start_cdp, lines 360-470)

Constants from lines 31-32.  Times are rationals in seconds.  Each recovery
wait loop runs `while elapsed < CDP_CONNECT_TIMEOUT`, probing the port once
per iteration and then sleeping CDP_CONNECT_POLL, so the k-th probe happens at
elapsed = k * CDP_CONNECT_POLL and the loop performs exactly
CDP_CONNECT_TIMEOUT / CDP_CONNECT_POLL = 30 probes when the port never
responds. -/

/-- Embeds CDP_CONNECT_TIMEOUT = 15 seconds. -/
def CDP_CONNECT_TIMEOUT : ℚ := 15

/-- Embeds CDP_CONNECT_POLL = 0.5 seconds. -/
def CDP_CONNECT_POLL : ℚ := 1/2

/-- Fuel-driven embedding of one recovery wait loop.  The invariant
elapsed = idx * CDP_CONNECT_POLL holds at every call; returns the probe index
at which the port answered, or none on timeout.  The fuel (64) strictly
dominates the 30 iterations the guard permits, so it never truncates the
loop. -/
def cdpWaitAux (avail : Nat → Bool) : Nat → Nat → ℚ → Option Nat
  | 0, _, _ => none
  | fuel + 1, idx, elapsed =>
    if elapsed < CDP_CONNECT_TIMEOUT then
      if avail idx then some idx
      else cdpWaitAux avail fuel (idx + 1) (elapsed + CDP_CONNECT_POLL)
    else none

/-- One recovery wait loop, started at elapsed = 0. -/
def cdpWaitLoop (avail : Nat → Bool) : Option Nat :=
  cdpWaitAux avail 64 0 0

/-- Default-browser registration as returned by detect_default_browser
(exe_path may be absent). -/
structure BrowserInfo where
  progid : String
  processName : String
  exePath : Option String
deriving DecidableEq, Repr

/-- Environment of one _start_cdp run: every OS/browser probe the function
can make, resolved to the value it would return. -/
structure CdpEnv where
  /-- Result of the step-2 _is_cdp_port_available probe. -/
  portAvailable : Bool
  /-- Whether the direct _connect_cdp handshake succeeds. -/
  connectOk : Bool
  /-- Result of detect_default_browser(). -/
  browserInfo : Option BrowserInfo
  /-- Result of _resolve_exe_from_channel(channel). -/
  channelExe : Option String
  /-- The configured browser channel. -/
  channel : String
  /-- Whether Path(exe_path).exists() holds for the resolved path. -/
  exeExists : Bool
  /-- Result of _is_browser_process_running(process_name). -/
  processRunning : Bool
  /-- Result of get_cdp_registry_status(progid, port): whether the HKCU
  launch-command override already carries the debugging flag. -/
  registryCdpEnabled : Bool
  /-- Port probes of the wait loop entered after a kill/launch. -/
  relaunchAvail : Nat → Bool
  /-- Whether the post-relaunch _connect_cdp handshake succeeds. -/
  connectAfterOk : Bool

/-- Embeds lines 366-378: resolve the recovery process name and executable
path from the detected registration, the channel lookup, and the channel
defaults. -/
def resolveRecovery (env : CdpEnv) : Option String × Option String :=
  let pn0 := env.browserInfo.map (·.processName)
  let ep0 := env.browserInfo.bind (·.exePath)
  let ep := match ep0 with | none => env.channelExe | some p => some p
  let pn := match pn0 with
    | some p => some p
    | none =>
      if env.channel = "msedge" then some "msedge.exe"
      else if env.channel = "chrome" then some "chrome.exe"
      else none
  (pn, ep)

/-- How one _start_cdp run ends. -/
inductive CdpOutcome
  /-- Direct handshake succeeded. -/
  | connected
  /-- Handshake succeeded after a kill/relaunch or fresh launch. -/
  | connectedAfterRelaunch
  /-- ConnectionError from the post-relaunch handshake propagates. -/
  | errSecondHandshake
  /-- Branch 2 re-raises the original handshake ConnectionError. -/
  | errHandshakeReraised
  /-- Branch 3 guidance ConnectionError: browser running, port silent,
  operator told to close the browser, enable the registry override, or launch
  with the flag (lines 437-443). -/
  | errGuidanceBrowserRunning
  /-- Branch 3 ConnectionError: relaunched but port never answered. -/
  | errRelaunchTimeout
  /-- Branch 4 ConnectionError: launched but port never answered. -/
  | errLaunchTimeout
  /-- Branch 5 ConnectionError: no browser executable resolvable. -/
  | errNoBrowser
deriving DecidableEq, Repr

/-- Observable actions of _start_cdp. -/
inductive CdpEvent
  /-- A _connect_cdp handshake attempt. -/
  | connectAttempt
  /-- _kill_browser_processes(process_name). -/
  | killProcesses (name : String)
  /-- _launch_browser_with_cdp(exe_path, port). -/
  | launchWithCdp (exe : String)
  /-- One full recovery wait loop with its result. -/
  | waitLoop (result : Option Nat)
deriving DecidableEq, Repr

/-- Shared tail of branches 3 and 4: launch (optionally after a kill), wait
for the port, and on success attempt the handshake; onTimeout names the
ConnectionError raised when the loop times out. -/
def cdpLaunchAndWait (env : CdpEnv) (pre : List CdpEvent) (exe : String)
    (onTimeout : CdpOutcome) : CdpOutcome × List CdpEvent :=
  let w := cdpWaitLoop env.relaunchAvail
  match w with
  | some _ =>
    if env.connectAfterOk then
      (.connectedAfterRelaunch, pre ++ [.launchWithCdp exe, .waitLoop w, .connectAttempt])
    else
      (.errSecondHandshake, pre ++ [.launchWithCdp exe, .waitLoop w, .connectAttempt])
  | none => (onTimeout, pre ++ [.launchWithCdp exe, .waitLoop w])

/-- Embeds _start_cdp (lines 360-470).  Branch numbering follows the source
comments: (2) port already answering, with kill/relaunch recovery when the
handshake fails; (3) port silent but browser running, relaunch only behind the
registry override, guidance error otherwise; (4) browser not running, launch
directly; (5) nothing to launch. -/
def start_cdp (env : CdpEnv) : CdpOutcome × List CdpEvent :=
  let r := resolveRecovery env
  let pn := r.1
  let ep := r.2
  let progid := env.browserInfo.map (·.progid)
  if env.portAvailable then
    if env.connectOk then (.connected, [.connectAttempt])
    else
      match pn, ep with
      | some pname, some exe =>
        if env.exeExists then
          cdpLaunchAndWait env [.connectAttempt, .killProcesses pname] exe .errHandshakeReraised
        else (.errHandshakeReraised, [.connectAttempt])
      | _, _ => (.errHandshakeReraised, [.connectAttempt])
  else
    match pn, env.processRunning with
    | some pname, true =>
      match progid, ep with
      | some _, some exe =>
        if env.registryCdpEnabled then
          cdpLaunchAndWait env [.killProcesses pname] exe .errRelaunchTimeout
        else (.errGuidanceBrowserRunning, [])
      | _, _ => (.errGuidanceBrowserRunning, [])
    | _, _ =>
      match ep with
      | some exe =>
        if env.exeExists then cdpLaunchAndWait env [] exe .errLaunchTimeout
        else (.errNoBrowser, [])
      | none => (.errNoBrowser, [])

/-! ## Helper lemmas -/

/-- The most-recent-date scan loop returns exactly the image of the longest
prefix of rows sharing the reference date text: skipped results for invalid
types, download results otherwise; rows at or after the first differing date
contribute nothing. -/
lemma scanRows_eq_takeWhile_map (mostRecent : String) (allowed : Option (List String))
    (dl : Nat → String → DocumentResult) (rows : List ScanRow) :
    scanRowsMostRecent mostRecent allowed dl rows =
      (rows.takeWhile (fun r => r.dateText == mostRecent)).map
        (fun r => if is_tipologia_valida r.tipoText allowed then dl r.idx r.tipoText
                  else mkSkippedResult r.tipoText) := by
  induction rows with
  | nil => simp [scanRowsMostRecent]
  | cons r rest ih =>
    by_cases h : r.dateText = mostRecent
    · by_cases hv : is_tipologia_valida r.tipoText allowed
      · simp [scanRowsMostRecent, List.takeWhile_cons, h, hv, ih]
      · simp [scanRowsMostRecent, List.takeWhile_cons, h,
          Bool.eq_false_iff.mpr hv, ih]
    · simp [scanRowsMostRecent, List.takeWhile_cons, h]

/-- The phase-2 pre-filter records one skipped result, in row order, for
exactly the rows rejected by the filter chain. -/
lemma phase2AD_fst (allowed : Option (List String)) (efu : String)
    (df dt : Option PDate) (rows : List InfoRow) :
    (phase2AD allowed efu df dt rows).1 =
      (rows.filter (fun r => !(classifyRowAD allowed efu df dt r))).map
        (fun r => mkSkippedResult r.tipoText) := by
  induction rows with
  | nil => simp [phase2AD]
  | cons r rest ih =>
    by_cases h : classifyRowAD allowed efu df dt r
    · simp [phase2AD, h, ih]
    · simp [phase2AD, Bool.eq_false_iff.mpr h, ih]

/-- rows_to_download is exactly the sublist of rows accepted by the filter
chain, in row order. -/
lemma phase2AD_snd (allowed : Option (List String)) (efu : String)
    (df dt : Option PDate) (rows : List InfoRow) :
    (phase2AD allowed efu df dt rows).2 =
      rows.filter (classifyRowAD allowed efu df dt) := by
  induction rows with
  | nil => simp [phase2AD]
  | cons r rest ih =>
    by_cases h : classifyRowAD allowed efu df dt r
    · simp [phase2AD, h, ih]
    · simp [phase2AD, Bool.eq_false_iff.mpr h, ih]

/-- Every result emitted by the download loop is the download of one of the
rows_to_download entries: rows outside that list are never downloaded. -/
lemma downloadLoopAD_mem (stopFlag : Nat → Bool) (dl : Nat → String → DocumentResult) :
    ∀ (k : Nat) (toDL : List InfoRow) (res : DocumentResult),
      res ∈ downloadLoopAD stopFlag dl k toDL →
      ∃ r ∈ toDL, res = dl r.idx r.tipoText := by
  intro k toDL
  induction toDL generalizing k with
  | nil => intro res h; simp [downloadLoopAD] at h
  | cons r rest ih =>
    intro res h
    by_cases hs : stopFlag k
    · simp [downloadLoopAD, hs] at h
    · simp only [downloadLoopAD, hs, if_false, Bool.false_eq_true, List.mem_cons] at h
      rcases h with h | h
      · exact ⟨r, List.mem_cons_self .., h⟩
      · obtain ⟨r2, hr2, hres⟩ := ih (k + 1) res h
        exact ⟨r2, List.mem_cons_of_mem _ hr2, hres⟩

/-- Characterisation of the allow-list test on an explicit allow-list. -/
lemma is_tipologia_valida_iff (t : String) (allowed : List String) :
    is_tipologia_valida t (some allowed) = true ↔
      (("REFERTO" ∈ allowed ∧ strStartsWith (strUpper (strTrim t)) "REFERTO" = true) ∨
       (∃ a ∈ allowed, a ≠ "REFERTO" ∧ strUpper (strTrim t) = a)) := by
  simp only [is_tipologia_valida, Option.getD_some, List.any_eq_true]
  constructor
  · rintro ⟨a, ha, hcond⟩
    by_cases h : a = "REFERTO"
    · subst h
      simp only [if_pos rfl] at hcond
      exact Or.inl ⟨ha, hcond⟩
    · simp only [if_neg h, decide_eq_true_eq] at hcond
      exact Or.inr ⟨a, ha, h, hcond⟩
  · rintro (⟨hm, hs⟩ | ⟨a, ha, hne, heq⟩)
    · exact ⟨"REFERTO", hm, by simp [hs]⟩
    · exact ⟨a, ha, by simp [hne, heq]⟩

/-- A row whose document type fails the allow-list test is classified as
rejected by the phase-2 filter chain, whatever the other criteria say. -/
lemma classifyRowAD_of_invalid_tipo (allowed : Option (List String)) (efu : String)
    (df dt : Option PDate) (r : InfoRow)
    (h : is_tipologia_valida r.tipoText allowed = false) :
    classifyRowAD allowed efu df dt r = false := by
  simp [classifyRowAD, h]

/-! ## Claim theorems -/

/-- C1: for every filter-criteria set, a scanned row whose document-type text
fails the allow-list test is recorded as a skipped DocumentResult (skipped
true, no path, no error) and never reaches the download stage, in both
process_patient_all_dates (conjuncts 2 and 3: the row lands among the skipped
results, never in rows_to_download, and the download loop only downloads
rows_to_download entries) and process_patient (conjunct 4, over the scanned
same-date prefix); conjunct 1 characterises acceptance: the stripped
upper-cased text equals a non-generic allow-list entry exactly, or the
allow-list contains the generic REFERTO entry and the text starts with
REFERTO. -/
theorem claim_C1 :
    (∀ (t : String) (allowed : List String),
      is_tipologia_valida t (some allowed) = true ↔
        (("REFERTO" ∈ allowed ∧ strStartsWith (strUpper (strTrim t)) "REFERTO" = true) ∨
         (∃ a ∈ allowed, a ≠ "REFERTO" ∧ strUpper (strTrim t) = a)))
    ∧
    (∀ (allowed : Option (List String)) (efu : String) (df dt : Option PDate)
       (rows : List InfoRow) (r : InfoRow), r ∈ rows →
      is_tipologia_valida r.tipoText allowed = false →
        mkSkippedResult r.tipoText ∈ (phase2AD allowed efu df dt rows).1 ∧
        r ∉ (phase2AD allowed efu df dt rows).2)
    ∧
    (∀ (stopFlag : Nat → Bool) (dl : Nat → String → DocumentResult) (k : Nat)
       (toDL : List InfoRow) (res : DocumentResult),
      res ∈ downloadLoopAD stopFlag dl k toDL → ∃ r ∈ toDL, res = dl r.idx r.tipoText)
    ∧
    (∀ (mostRecent : String) (allowed : Option (List String))
       (dl : Nat → String → DocumentResult) (rows : List ScanRow) (r : ScanRow),
      r ∈ rows.takeWhile (fun x => x.dateText == mostRecent) →
      is_tipologia_valida r.tipoText allowed = false →
        mkSkippedResult r.tipoText ∈ scanRowsMostRecent mostRecent allowed dl rows) := by
  refine ⟨is_tipologia_valida_iff, ?_, ?_, ?_⟩
  · intro allowed efu df dt rows r hmem hinv
    have hcls := classifyRowAD_of_invalid_tipo allowed efu df dt r hinv
    constructor
    · rw [phase2AD_fst]
      exact List.mem_map_of_mem _ (List.mem_filter.mpr ⟨hmem, by simp [hcls]⟩)
    · rw [phase2AD_snd]
      intro hc
      exact absurd (List.mem_filter.mp hc).2 (by simp [hcls])
  · exact fun stopFlag dl k toDL res h => downloadLoopAD_mem stopFlag dl k toDL res h
  · intro mostRecent allowed dl rows r hmem hinv
    rw [scanRows_eq_takeWhile_map]
    have : (if is_tipologia_valida r.tipoText allowed then dl r.idx r.tipoText
            else mkSkippedResult r.tipoText) = mkSkippedResult r.tipoText := by
      simp [hinv]
    exact this ▸ List.mem_map_of_mem _ hmem

/-- Witness for C1: with the allow-list consisting of the generic REFERTO
entry only, the row typed NON DISPONIBILE lands among the skipped results and
not in rows_to_download, even though its date and origin would match the
criteria. -/
theorem claim_C1_witness :
    mkSkippedResult "NON DISPONIBILE" ∈
      (phase2AD (some ["REFERTO"]) "" (some ⟨2024, 5, 10⟩) none
        [⟨0, "10/05/2024", "NON DISPONIBILE", "OSPEDALE"⟩]).1 ∧
    (⟨0, "10/05/2024", "NON DISPONIBILE", "OSPEDALE"⟩ : InfoRow) ∉
      (phase2AD (some ["REFERTO"]) "" (some ⟨2024, 5, 10⟩) none
        [⟨0, "10/05/2024", "NON DISPONIBILE", "OSPEDALE"⟩]).2 :=
  claim_C1.2.1 (some ["REFERTO"]) "" (some ⟨2024, 5, 10⟩) none
    [⟨0, "10/05/2024", "NON DISPONIBILE", "OSPEDALE"⟩]
    ⟨0, "10/05/2024", "NON DISPONIBILE", "OSPEDALE"⟩
    (List.mem_singleton.mpr rfl) (by decide)

/-- C5: in most-recent-date-only mode the scan output is exactly the image of
the longest prefix of rows whose date text equals the first row's date text:
each prefix row is evaluated independently for type validity (invalid rows
become skipped results, valid rows become downloads, in table order), and
rows at or after the first differing-date row contribute no DocumentResult at
all. -/
theorem claim_C5 (allowed : Option (List String)) (dl : Nat → String → DocumentResult)
    (first : ScanRow) (rest : List ScanRow) :
    processRowsPP allowed dl (first :: rest) =
      ((first :: rest).takeWhile (fun r => r.dateText == first.dateText)).map
        (fun r => if is_tipologia_valida r.tipoText allowed then dl r.idx r.tipoText
                  else mkSkippedResult r.tipoText) := by
  simp [processRowsPP, scanRows_eq_takeWhile_map]

/-- C8: when the navigation/login phase raises, both per-patient functions
return exactly one DocumentResult carrying classification N/A, skipped false,
no download path and the exception text, with a diagnostic screenshot
attempted; no exception propagates (the functions return normally for every
navigation error). -/
theorem claim_C8 (patient_name codice_fiscale e : String) (alive : Bool)
    (table tableAD : Except String (List String × List Row))
    (allowed : Option (List String)) (dl : Nat → String → DocumentResult)
    (ente_filter : String) (df dt : Option PDate) (stopFlag : Nat → Bool) :
    process_patient patient_name false alive (.error e) table allowed dl =
      ([⟨"N/A", false, none, some e⟩],
        (if alive then [] else [PEvent.restarted]) ++ [PEvent.screenshot patient_name]) ∧
    process_patient_all_dates codice_fiscale false alive (.error e) tableAD allowed
        ente_filter df dt stopFlag dl =
      ([⟨"N/A", false, none, some e⟩],
        (if alive then [] else [PEvent.restarted]) ++ [PEvent.screenshot codice_fiscale]) := by
  constructor <;>
    simp [process_patient, process_patient_all_dates, navErrorResult]

/-- C10: a row whose date text parses under none of the three formats passes
the date-range filter even when bounds are set: provided the type and origin
filters accept it, it is classified for download and lands in
rows_to_download. -/
theorem claim_C10 (allowed : Option (List String)) (efu : String)
    (df dt : Option PDate) (r : InfoRow) (rows : List InfoRow)
    (htipo : is_tipologia_valida r.tipoText allowed = true)
    (hente : efu = "" ∨ containsSub (strUpper r.enteText) efu = true)
    (hdate : parse_table_date r.dateText = none) :
    classifyRowAD allowed efu df dt r = true ∧
      (r ∈ rows → r ∈ (phase2AD allowed efu df dt rows).2) := by
  have hcls : classifyRowAD allowed efu df dt r = true := by
    unfold classifyRowAD
    rcases hente with he | he <;>
      simp [htipo, he, hdate]
  refine ⟨hcls, fun hmem => ?_⟩
  rw [phase2AD_snd]
  exact List.mem_filter.mpr ⟨hmem, hcls⟩

/-- Witness for C10: the date text 31/02/2024 parses under no format (there
is no 31st of February), so the REFERTO row is downloaded despite a
restrictive configured date range starting in 2030. -/
theorem claim_C10_witness :
    classifyRowAD (some ["REFERTO"]) "" (some ⟨2030, 1, 1⟩) (some ⟨2030, 12, 31⟩)
        ⟨0, "31/02/2024", "REFERTO", ""⟩ = true ∧
    (⟨0, "31/02/2024", "REFERTO", ""⟩ : InfoRow) ∈
      (phase2AD (some ["REFERTO"]) "" (some ⟨2030, 1, 1⟩) (some ⟨2030, 12, 31⟩)
        [⟨0, "31/02/2024", "REFERTO", ""⟩]).2 := by
  have h := claim_C10 (some ["REFERTO"]) "" (some ⟨2030, 1, 1⟩) (some ⟨2030, 12, 31⟩)
    ⟨0, "31/02/2024", "REFERTO", ""⟩ [⟨0, "31/02/2024", "REFERTO", ""⟩]
    (by decide) (Or.inl rfl) (by decide)
  exact ⟨h.1, h.2 (List.mem_singleton.mpr rfl)⟩

/-- Python date comparison is irreflexive. -/
lemma PDate.blt_irrefl (p : PDate) : p.blt p = false := by
  simp [PDate.blt]

/-- For a row accepted by the type and origin filters whose date text parses,
the phase-2 classification reduces to the pure date-range test: rejected iff
strictly before date_from or strictly after date_to. -/
lemma classifyRowAD_date_eq (allowed : Option (List String)) (efu : String)
    (df dt : Option PDate) (r : InfoRow) (p : PDate)
    (ht : is_tipologia_valida r.tipoText allowed = true)
    (he : efu = "" ∨ containsSub (strUpper r.enteText) efu = true)
    (hp : parse_table_date r.dateText = some p) :
    classifyRowAD allowed efu df dt r =
      !((match df with | some f => p.blt f | none => false) ||
        (match dt with | some t => p.bgt t | none => false)) := by
  unfold classifyRowAD
  rcases he with he | he <;>
    cases df <;> cases dt <;>
      simp [ht, he, hp]

/-- C7: with a date range configured, the bounds are inclusive: given a row
accepted by the type and origin filters whose date text parses to p, the
filter chain rejects it exactly when p is strictly before date_from or
strictly after date_to; in particular a row dated exactly date_from or
exactly date_to is never rejected by the date comparison (any rejection could
only come from the opposite bound, impossible when the range is
consistent). -/
theorem claim_C7 (allowed : Option (List String)) (efu : String)
    (df dt : Option PDate) (r : InfoRow) (p : PDate)
    (ht : is_tipologia_valida r.tipoText allowed = true)
    (he : efu = "" ∨ containsSub (strUpper r.enteText) efu = true)
    (hp : parse_table_date r.dateText = some p) :
    (classifyRowAD allowed efu df dt r = false ↔
      (∃ f, df = some f ∧ p.blt f = true) ∨ (∃ t, dt = some t ∧ p.bgt t = true))
    ∧ (df = some p → dt = none → classifyRowAD allowed efu df dt r = true)
    ∧ (df = some p → ∀ t, dt = some t → p.ble t = true →
        classifyRowAD allowed efu df dt r = true)
    ∧ (dt = some p → df = none → classifyRowAD allowed efu df dt r = true)
    ∧ (dt = some p → ∀ f, df = some f → f.ble p = true →
        classifyRowAD allowed efu df dt r = true) := by
  have hk := classifyRowAD_date_eq allowed efu df dt r p ht he hp
  refine ⟨?_, ?_, ?_, ?_, ?_⟩
  · rw [hk]
    cases df <;> cases dt <;> simp
    rename_i f t
    cases hb : p.blt f <;> cases hc : p.bgt t <;> simp
  · rintro rfl rfl
    simp [hk, PDate.blt_irrefl]
  · rintro rfl t rfl hle
    have : PDate.blt t p = false := by
      simpa [PDate.ble] using hle
    simp [hk, PDate.blt_irrefl, PDate.bgt, this]
  · rintro rfl rfl
    simp [hk, PDate.bgt, PDate.blt_irrefl]
  · rintro rfl f rfl hle
    have : PDate.blt p f = false := by
      simpa [PDate.ble] using hle
    simp [hk, PDate.bgt, PDate.blt_irrefl, this]

/-- Witness for C7: a REFERTO row dated exactly the lower bound 01/03/2024 of
the configured range 01/03/2024 - 31/03/2024 is classified for download. -/
theorem claim_C7_witness :
    classifyRowAD (some ["REFERTO"]) "" (some ⟨2024, 3, 1⟩) (some ⟨2024, 3, 31⟩)
      ⟨0, "01/03/2024", "REFERTO", ""⟩ = true := by
  have h := claim_C7 (some ["REFERTO"]) "" (some ⟨2024, 3, 1⟩) (some ⟨2024, 3, 31⟩)
    ⟨0, "01/03/2024", "REFERTO", ""⟩ ⟨2024, 3, 1⟩
    (by decide) (Or.inl rfl) (by decide)
  exact h.2.2.1 rfl ⟨2024, 3, 31⟩ rfl (by decide)

/-- C2 counterexample: when both attempts raise with text TimeoutError boom,
the returned DocumentResult carries the fixed message of line 1118, which is
non-empty but does not contain (and is not equal to) the attempt error text;
so the claimed result error carrying the error text fails on the code at this
input. -/
theorem claim_C2_counterexample :
    (download_document 0 "REFERTO" "Mario Rossi" "downloads"
        (fun _ => .err "TimeoutError boom") true).1.error = some downloadRetryFailedMsg ∧
    containsSub downloadRetryFailedMsg "TimeoutError boom" = false ∧
    downloadRetryFailedMsg ≠ "TimeoutError boom" :=
  ⟨rfl, by decide, by decide⟩

/-- C2 (amended): _download_document makes at most two attempts; a row whose
first attempt throws and whose second succeeds returns the successful result
(skipped false, path present, no error); a first-attempt failure triggers the
recovery page reload, and the table re-wait when that reload succeeds, before
the retry; when both attempts fail the result has skipped false, no path and
the non-empty fixed error message of line 1118 (the attempt error text goes
to the log only), after the diagnostic screenshot keyed by the row-specific
label; and every path returns a DocumentResult (no exception escapes). -/
theorem claim_C2 (rowIndex : Nat) (tipologia patientName downloadDir : String)
    (attempts : Nat → AttemptOutcome) (reloadOk : Bool) :
    ((download_document rowIndex tipologia patientName downloadDir attempts reloadOk).2.countP
        (fun e => match e with | .attemptStart _ => true | _ => false) ≤ 2)
    ∧ (∀ m f, attempts 0 = .err m → attempts 1 = .ok f →
        (download_document rowIndex tipologia patientName downloadDir attempts reloadOk).1 =
          downloadOkResult tipologia (downloadSavePath downloadDir patientName rowIndex f))
    ∧ (∀ m, attempts 0 = .err m →
        ∃ rest,
          (download_document rowIndex tipologia patientName downloadDir attempts reloadOk).2 =
            DlEvent.attemptStart 0 :: DlEvent.reloadPage ::
              ((if reloadOk then [DlEvent.rewaitTable] else []) ++
                DlEvent.attemptStart 1 :: rest))
    ∧ (∀ m1 m2, attempts 0 = .err m1 → attempts 1 = .err m2 →
        (download_document rowIndex tipologia patientName downloadDir attempts reloadOk).1 =
          ⟨tipologia, false, none, some downloadRetryFailedMsg⟩ ∧
        DlEvent.screenshot (patientName ++ "_row" ++ Nat.repr (rowIndex + 1)) ∈
          (download_document rowIndex tipologia patientName downloadDir attempts reloadOk).2)
    ∧ ((download_document rowIndex tipologia patientName downloadDir attempts reloadOk).1.skipped
        = false) := by
  cases h0 : attempts 0 with
  | ok f0 =>
    refine ⟨?_, ?_, ?_, ?_, ?_⟩ <;>
      simp [download_document, h0, downloadOkResult]
  | err m0 =>
    cases h1 : attempts 1 with
    | ok f1 =>
      refine ⟨?_, ?_, ?_, ?_, ?_⟩ <;>
        cases reloadOk <;>
          simp [download_document, h0, h1, downloadOkResult, List.countP_cons]
    | err m1 =>
      refine ⟨?_, ?_, ?_, ?_, ?_⟩ <;>
        cases reloadOk <;>
          simp [download_document, h0, h1, downloadOkResult, List.countP_cons]

/-- Witness for C2: first attempt raises, second attempt captures
referto.pdf; the result is the successful DocumentResult pointing at
downloads/Mario_Rossi_2.pdf with no error. -/
theorem claim_C2_witness :
    (download_document 2 "REFERTO" "Mario Rossi" "downloads"
        (fun n => if n = 0 then .err "boom" else .ok "referto.pdf") true).1 =
      downloadOkResult "REFERTO" "downloads/Mario_Rossi_2.pdf" := by
  have h := (claim_C2 2 "REFERTO" "Mario Rossi" "downloads"
      (fun n => if n = 0 then .err "boom" else .ok "referto.pdf") true).2.1
    "boom" "referto.pdf" rfl rfl
  rw [h]
  rfl

/-- C4: stop() on an attached session only closes the automation tab and
disconnects the CDP handle (never the launched-context close that would
terminate the browser); on an owned session it closes the whole context and
touches no tab/CDP handle; the sequence of attempted close operations, and
the fully reset final state, are identical whatever subset of close calls
raises (each error is swallowed); and when the top-level Playwright handle is
present its release is always the last attempted operation. -/
theorem claim_C4 (s : SessionState) (f : CloseFailures) :
    ((stopSession s f).2 = ⟨false, false, false, false, false⟩)
    ∧ ((stopSession s f).1.map StopEvent.op =
        (stopSession s ⟨false, false, false, false⟩).1.map StopEvent.op)
    ∧ (s.attached = true →
        (∀ ev ∈ (stopSession s f).1, ev.op ≠ StopOp.closeContext) ∧
        (s.hasPage = true →
          (⟨StopOp.closePage, !f.pageFails⟩ : StopEvent) ∈ (stopSession s f).1) ∧
        (s.hasBrowser = true →
          (⟨StopOp.closeBrowser, !f.browserFails⟩ : StopEvent) ∈ (stopSession s f).1))
    ∧ (s.attached = false →
        (∀ ev ∈ (stopSession s f).1,
          ev.op ≠ StopOp.closePage ∧ ev.op ≠ StopOp.closeBrowser) ∧
        (s.hasContext = true →
          (⟨StopOp.closeContext, !f.contextFails⟩ : StopEvent) ∈ (stopSession s f).1))
    ∧ (s.hasPlaywright = true →
        (stopSession s f).1.getLast? = some ⟨StopOp.stopPlaywright, !f.playwrightFails⟩) := by
  obtain ⟨p, b, c, pw, a⟩ := s
  obtain ⟨fp, fb, fc, fpw⟩ := f
  cases a <;> cases p <;> cases b <;> cases c <;> cases pw <;>
    simp [stopSession]

/-- Witness for C4: an attached session holding a tab, a CDP handle and the
Playwright handle, whose tab close raises: no context close is attempted, the
CDP disconnect still happens, and the Playwright release comes last. -/
theorem claim_C4_witness :
    (∀ ev ∈ (stopSession ⟨true, true, false, true, true⟩ ⟨true, false, false, false⟩).1,
        ev.op ≠ StopOp.closeContext) ∧
    (⟨StopOp.closeBrowser, true⟩ : StopEvent) ∈
      (stopSession ⟨true, true, false, true, true⟩ ⟨true, false, false, false⟩).1 ∧
    (stopSession ⟨true, true, false, true, true⟩ ⟨true, false, false, false⟩).1.getLast?
      = some ⟨StopOp.stopPlaywright, true⟩ := by
  have h := claim_C4 ⟨true, true, false, true, true⟩ ⟨true, false, false, false⟩
  exact ⟨(h.2.2.1 rfl).1, (h.2.2.1 rfl).2.2 rfl, h.2.2.2.2 rfl⟩

/-- Recogniser for wait-loop events in a _start_cdp trace. -/
def isWaitLoopEv : CdpEvent → Bool
  | .waitLoop _ => true
  | _ => false

/-- If a recovery wait loop entered with elapsed = idx * poll answers at probe
i, then that probe happened strictly before the timeout ceiling. -/
lemma cdpWaitAux_some_bound (avail : Nat → Bool) :
    ∀ (fuel idx i : Nat),
      cdpWaitAux avail fuel idx ((idx : ℚ) * CDP_CONNECT_POLL) = some i →
      (i : ℚ) * CDP_CONNECT_POLL < CDP_CONNECT_TIMEOUT := by
  intro fuel
  induction fuel with
  | zero => intro idx i h; simp [cdpWaitAux] at h
  | succ n ih =>
    intro idx i h
    simp only [cdpWaitAux] at h
    by_cases hel : ((idx : ℚ) * CDP_CONNECT_POLL) < CDP_CONNECT_TIMEOUT
    · rw [if_pos hel] at h
      by_cases ha : avail idx
      · rw [if_pos ha] at h
        cases h
        exact hel
      · rw [if_neg ha] at h
        have hcast : (idx : ℚ) * CDP_CONNECT_POLL + CDP_CONNECT_POLL
            = ((idx + 1 : Nat) : ℚ) * CDP_CONNECT_POLL := by push_cast; ring
        rw [hcast] at h
        exact ih (idx + 1) i h
    · rw [if_neg hel] at h
      cases h

/-- Every successful probe of a recovery wait loop happens strictly before
the 15-second ceiling (at time i * 0.5 for probe i). -/
lemma cdpWaitLoop_some_bound (avail : Nat → Bool) (i : Nat)
    (h : cdpWaitLoop avail = some i) :
    (i : ℚ) * CDP_CONNECT_POLL < CDP_CONNECT_TIMEOUT := by
  apply cdpWaitAux_some_bound avail 64 0 i
  have h0 : ((0 : Nat) : ℚ) * CDP_CONNECT_POLL = 0 := by simp
  rw [h0]
  exact h

/-- A recovery wait loop whose port never answers terminates with none
(bounded wait, no hang). -/
lemma cdpWaitLoop_none_of_never (avail : Nat → Bool) (h : ∀ k, avail k = false) :
    cdpWaitLoop avail = none := by
  suffices haux : ∀ fuel idx e, cdpWaitAux avail fuel idx e = none from haux 64 0 0
  intro fuel
  induction fuel with
  | zero => intro idx e; simp [cdpWaitAux]
  | succ n ih =>
    intro idx e
    simp only [cdpWaitAux]
    split
    · rw [h idx]
      simp [ih]
    · rfl

/-- A launch-and-wait tail whose prefix carries no wait-loop event produces a
trace with at most one wait-loop event. -/
lemma cdpLaunchAndWait_count (env : CdpEnv) (pre : List CdpEvent) (exe : String)
    (onTimeout : CdpOutcome) (hpre : pre.countP isWaitLoopEv = 0) :
    ((cdpLaunchAndWait env pre exe onTimeout).2.countP isWaitLoopEv) ≤ 1 := by
  unfold cdpLaunchAndWait
  cases hw : cdpWaitLoop env.relaunchAvail <;>
    cases hca : env.connectAfterOk <;>
      simp [List.countP_append, hpre, isWaitLoopEv]

/-- Every run of _start_cdp enters at most one recovery wait loop. -/
lemma start_cdp_waitLoop_count (env : CdpEnv) :
    ((start_cdp env).2.countP isWaitLoopEv) ≤ 1 := by
  unfold start_cdp
  rcases hr1 : (resolveRecovery env).1 with _ | pname <;>
    rcases hr2 : (resolveRecovery env).2 with _ | exe <;>
      rcases hpg : env.browserInfo.map (fun x => x.progid) with _ | pg <;>
        cases hport : env.portAvailable <;>
          cases hco : env.connectOk <;>
            cases hex : env.exeExists <;>
              cases hrun : env.processRunning <;>
                cases hreg : env.registryCdpEnabled <;>
                  simp [hr1, hr2, hpg, hport, hco, hex, hrun, hreg, isWaitLoopEv] <;>
                    exact cdpLaunchAndWait_count env _ _ _ (by simp [isWaitLoopEv])

/-- C3: with the port silent and the browser process running, _start_cdp
kills and relaunches the browser exactly when the HKCU registry override for
the debugging flag is already active (with a known progid and executable
path); otherwise it immediately raises the guidance ConnectionError with an
empty action trace (no kill, no launch, no wait); and the numeric policy
holds: the poll interval is 0.5s, the ceiling 15s, each run enters at most
one wait loop, every successful probe happens strictly below the ceiling,
and a never-answering port makes the wait loop return none rather than
hang. -/
theorem claim_C3 :
    (∀ (env : CdpEnv) (pname : String),
      env.portAvailable = false → (resolveRecovery env).1 = some pname →
      env.processRunning = true →
      ((((env.browserInfo.map BrowserInfo.progid).isSome ∧
          env.registryCdpEnabled = true ∧ (resolveRecovery env).2.isSome) →
        ∃ exe w rest, (start_cdp env).2 =
          CdpEvent.killProcesses pname :: CdpEvent.launchWithCdp exe ::
            CdpEvent.waitLoop w :: rest)
       ∧ (¬((env.browserInfo.map BrowserInfo.progid).isSome ∧
            env.registryCdpEnabled = true ∧ (resolveRecovery env).2.isSome) →
          start_cdp env = (CdpOutcome.errGuidanceBrowserRunning, []))))
    ∧ CDP_CONNECT_POLL = 1/2
    ∧ CDP_CONNECT_TIMEOUT = 15
    ∧ (∀ env : CdpEnv, ((start_cdp env).2.countP isWaitLoopEv) ≤ 1)
    ∧ (∀ (avail : Nat → Bool) (i : Nat), cdpWaitLoop avail = some i →
        (i : ℚ) * CDP_CONNECT_POLL < CDP_CONNECT_TIMEOUT)
    ∧ (∀ avail : Nat → Bool, (∀ k, avail k = false) → cdpWaitLoop avail = none) := by
  refine ⟨?_, rfl, rfl, start_cdp_waitLoop_count, cdpWaitLoop_some_bound,
    cdpWaitLoop_none_of_never⟩
  intro env pname hport hpn hrun
  constructor
  · rintro ⟨hpi, hreg, hep⟩
    obtain ⟨pg, hpg⟩ := Option.isSome_iff_exists.mp hpi
    obtain ⟨exe, hexe⟩ := Option.isSome_iff_exists.mp hep
    cases hw : cdpWaitLoop env.relaunchAvail with
    | none =>
      exact ⟨exe, none, [],
        by simp [start_cdp, cdpLaunchAndWait, hport, hpn, hrun, hpg, hexe, hreg, hw]⟩
    | some i =>
      cases hca : env.connectAfterOk with
      | true =>
        exact ⟨exe, some i, [CdpEvent.connectAttempt],
          by simp [start_cdp, cdpLaunchAndWait, hport, hpn, hrun, hpg, hexe, hreg, hw, hca]⟩
      | false =>
        exact ⟨exe, some i, [CdpEvent.connectAttempt],
          by simp [start_cdp, cdpLaunchAndWait, hport, hpn, hrun, hpg, hexe, hreg, hw, hca]⟩
  · intro hneg
    cases hpg : env.browserInfo.map BrowserInfo.progid with
    | none => simp [start_cdp, hport, hpn, hrun, hpg]
    | some pg =>
      cases hep : (resolveRecovery env).2 with
      | none => simp [start_cdp, hport, hpn, hrun, hpg, hep]
      | some exe =>
        cases hreg : env.registryCdpEnabled with
        | false => simp [start_cdp, hport, hpn, hrun, hpg, hep, hreg]
        | true =>
          exact absurd ⟨by simp [hpg], hreg, by simp [hep]⟩ hneg

/-- Witness for C3: port silent, msedge running, registry override inactive:
_start_cdp raises the guidance ConnectionError immediately, with no kill,
launch or wait action. -/
theorem claim_C3_witness :
    start_cdp
      { portAvailable := false, connectOk := false,
        browserInfo := some ⟨"MSEdgeHTM", "msedge.exe", some "C:/edge/msedge.exe"⟩,
        channelExe := none, channel := "msedge", exeExists := true,
        processRunning := true, registryCdpEnabled := false,
        relaunchAvail := fun _ => false, connectAfterOk := false }
      = (CdpOutcome.errGuidanceBrowserRunning, []) := by
  have h := (claim_C3.1
    { portAvailable := false, connectOk := false,
      browserInfo := some ⟨"MSEdgeHTM", "msedge.exe", some "C:/edge/msedge.exe"⟩,
      channelExe := none, channel := "msedge", exeExists := true,
      processRunning := true, registryCdpEnabled := false,
      relaunchAvail := fun _ => false, connectAfterOk := false }
    "msedge.exe" rfl rfl rfl).2
  exact h (by simp)

/-- Header predicate: the upper-cased text contains DATA. -/
def isDataHeader (h : String) : Bool := containsSub (strUpper h) "DATA"

/-- The resolution chain step leaves dateCol unchanged unless the DATA branch
fires (all-dates version). -/
lemma resolveColsADStep_dateCol (idx : Nat) (h : String) (acc : ColsAD) :
    (resolveColsADStep idx h acc).dateCol =
      if isDataHeader h && acc.dateCol.isNone then some idx else acc.dateCol := by
  unfold resolveColsADStep isDataHeader
  cases hD : containsSub (strUpper h) "DATA" <;>
    cases hN : acc.dateCol.isNone <;>
      simp [hD, hN] <;>
        (repeat' split) <;> rfl

/-- A date column already resolved is never displaced (all-dates version). -/
lemma resolveColsADAux_dateCol_some (l : List String) :
    ∀ (idx : Nat) (acc : ColsAD) (d : Nat), acc.dateCol = some d →
      (resolveColsADAux idx acc l).dateCol = some d := by
  induction l with
  | nil => intro idx acc d hacc; simpa [resolveColsADAux] using hacc
  | cons h t ih =>
    intro idx acc d hacc
    rw [resolveColsADAux]
    apply ih
    rw [resolveColsADStep_dateCol, hacc]
    simp

/-- With dateCol still unresolved, the chain resolves it to the first
DATA-containing header (all-dates version). -/
lemma resolveColsADAux_dateCol_none (l : List String) :
    ∀ (idx : Nat) (acc : ColsAD), acc.dateCol = none →
      (resolveColsADAux idx acc l).dateCol =
        (l.findIdx? isDataHeader).map (· + idx) := by
  induction l with
  | nil => intro idx acc hacc; simpa [resolveColsADAux, List.findIdx?] using hacc
  | cons h t ih =>
    intro idx acc hacc
    rw [resolveColsADAux]
    by_cases hd : isDataHeader h
    · have hstep : (resolveColsADStep idx h acc).dateCol = some idx := by
        rw [resolveColsADStep_dateCol, hacc]
        simp [hd]
      rw [resolveColsADAux_dateCol_some t _ _ idx hstep]
      simp [List.findIdx?_cons, hd]
    · have hstep : (resolveColsADStep idx h acc).dateCol = none := by
        rw [resolveColsADStep_dateCol, hacc]
        simp [hd]
      rw [ih (idx + 1) _ hstep]
      simp only [List.findIdx?_cons, hd, if_false, Bool.false_eq_true]
      cases hf : t.findIdx? isDataHeader <;> simp [hf]
      all_goals omega

/-- The same statements for the process_patient chain. -/
lemma resolveColsPPStep_dateCol (idx : Nat) (h : String) (acc : ColsPP) :
    (resolveColsPPStep idx h acc).dateCol =
      if isDataHeader h && acc.dateCol.isNone then some idx else acc.dateCol := by
  unfold resolveColsPPStep isDataHeader
  cases hD : containsSub (strUpper h) "DATA" <;>
    cases hN : acc.dateCol.isNone <;>
      simp [hD, hN] <;>
        (repeat' split) <;> rfl

/-- A date column already resolved is never displaced (process_patient
version). -/
lemma resolveColsPPAux_dateCol_some (l : List String) :
    ∀ (idx : Nat) (acc : ColsPP) (d : Nat), acc.dateCol = some d →
      (resolveColsPPAux idx acc l).dateCol = some d := by
  induction l with
  | nil => intro idx acc d hacc; simpa [resolveColsPPAux] using hacc
  | cons h t ih =>
    intro idx acc d hacc
    rw [resolveColsPPAux]
    apply ih
    rw [resolveColsPPStep_dateCol, hacc]
    simp

/-- With dateCol still unresolved, the chain resolves it to the first
DATA-containing header (process_patient version). -/
lemma resolveColsPPAux_dateCol_none (l : List String) :
    ∀ (idx : Nat) (acc : ColsPP), acc.dateCol = none →
      (resolveColsPPAux idx acc l).dateCol =
        (l.findIdx? isDataHeader).map (· + idx) := by
  induction l with
  | nil => intro idx acc hacc; simpa [resolveColsPPAux, List.findIdx?] using hacc
  | cons h t ih =>
    intro idx acc hacc
    rw [resolveColsPPAux]
    by_cases hd : isDataHeader h
    · have hstep : (resolveColsPPStep idx h acc).dateCol = some idx := by
        rw [resolveColsPPStep_dateCol, hacc]
        simp [hd]
      rw [resolveColsPPAux_dateCol_some t _ _ idx hstep]
      simp [List.findIdx?_cons, hd]
    · have hstep : (resolveColsPPStep idx h acc).dateCol = none := by
        rw [resolveColsPPStep_dateCol, hacc]
        simp [hd]
      rw [ih (idx + 1) _ hstep]
      simp only [List.findIdx?_cons, hd, if_false, Bool.false_eq_true]
      cases hf : t.findIdx? isDataHeader <;> simp [hf]
      all_goals omega

/-- Appending headers shifts the fold of the all-dates resolution chain. -/
lemma resolveColsADAux_append (l1 l2 : List String) :
    ∀ (idx : Nat) (acc : ColsAD),
      resolveColsADAux idx acc (l1 ++ l2) =
        resolveColsADAux (idx + l1.length) (resolveColsADAux idx acc l1) l2 := by
  induction l1 with
  | nil => intro idx acc; simp [resolveColsADAux]
  | cons h t ih =>
    intro idx acc
    calc resolveColsADAux idx acc ((h :: t) ++ l2)
        = resolveColsADAux (idx + 1) (resolveColsADStep idx h acc) (t ++ l2) := rfl
      _ = resolveColsADAux ((idx + 1) + t.length)
            (resolveColsADAux (idx + 1) (resolveColsADStep idx h acc) t) l2 := ih ..
      _ = resolveColsADAux (idx + (h :: t).length) (resolveColsADAux idx acc (h :: t)) l2 := by
            have h1 : (idx + 1) + t.length = idx + (h :: t).length := by
              simp only [List.length_cons]
              omega
            rw [h1]
            rfl

/-- C6 counterexample: (1) with two TIPOLOGIA headers the resolved type
column is the second one, not the first as the claim states; (2) with no
ENTE/STRUTTURA header and a non-empty origin filter, a type-valid row is
recorded as skipped: the unresolved origin column does not disable the origin
filter (as the claim states) but makes it reject every row (the empty origin
text contains no non-empty filter). -/
theorem claim_C6_counterexample :
    ((resolveColsAD ["TIPOLOGIA DOCUMENTO", "TIPOLOGIA PRESCRIZIONE"]).tipoCol = some 1 ∧
      (resolveColsAD ["TIPOLOGIA DOCUMENTO", "TIPOLOGIA PRESCRIZIONE"]).tipoCol ≠ some 0) ∧
    (process_patient_all_dates "CF" false true (.ok ())
        (.ok (["DATA", "TIPOLOGIA DOCUMENTO"], [⟨["10/05/2024", "REFERTO"]⟩]))
        (some ["REFERTO"]) "OSPEDALE" none none (fun _ => false)
        (fun _ _ => mkSkippedResult "unused")).1 = [mkSkippedResult "REFERTO"] := by
  exact ⟨⟨by decide, by decide⟩, by decide⟩

/-- C6 (amended): header classification is by substring match against the
keyword sets; for the date column the first DATA-containing header wins (the
only branch guarded by an is-None check), while for the type, origin and
action columns a later matching header overwrites the earlier index (last
match wins); a table whose headers never contain TIPOLOGIA is a hard failure
for that patient (the single N/A failure result), any resolved type column
yields the normal filter/download path; an unresolved date column only
disables date-based filtering (empty date text passes the range filter),
whereas an unresolved origin column combined with a non-empty origin filter
skips every row. -/
theorem claim_C6 :
    (∀ headers : List String,
      (resolveColsAD headers).dateCol = headers.findIdx? isDataHeader ∧
      (resolveColsPP headers).dateCol = headers.findIdx? isDataHeader)
    ∧ (∀ (headers : List String) (h : String),
        containsSub (strUpper h) "DATA" = false →
        ((containsSub (strUpper h) "TIPOLOGIA" = true →
          (resolveColsAD (headers ++ [h])).tipoCol = some headers.length) ∧
         (containsSub (strUpper h) "TIPOLOGIA" = false →
          (containsSub (strUpper h) "ENTE" = true ∨ containsSub (strUpper h) "STRUTTURA" = true) →
          (resolveColsAD (headers ++ [h])).enteCol = some headers.length) ∧
         (containsSub (strUpper h) "TIPOLOGIA" = false →
          containsSub (strUpper h) "ENTE" = false → containsSub (strUpper h) "STRUTTURA" = false →
          containsSub (strUpper h) "VISUALIZZA" = true →
          (resolveColsAD (headers ++ [h])).visCol = some headers.length)))
    ∧ (∀ (cf : String) (alive : Bool) (headers : List String) (rows : List Row)
         (allowed : Option (List String)) (ef : String) (df dt : Option PDate)
         (stopFlag : Nat → Bool) (dl : Nat → String → DocumentResult),
        ((resolveColsAD headers).tipoCol = none →
          process_patient_all_dates cf false alive (.ok ()) (.ok (headers, rows))
              allowed ef df dt stopFlag dl =
            ([navErrorResult tipologiaMissingMsg],
              (if alive then [] else [PEvent.restarted]) ++ [PEvent.screenshot cf])) ∧
        (∀ tc, (resolveColsAD headers).tipoCol = some tc →
          (process_patient_all_dates cf false alive (.ok ()) (.ok (headers, rows))
              allowed ef df dt stopFlag dl).1 =
            (phase2AD allowed (strUpper (strTrim ef)) df dt
              (extractRowInfoAD (resolveColsAD headers).dateCol tc
                (resolveColsAD headers).enteCol 0 rows)).1 ++
            downloadLoopAD stopFlag dl 0
              (phase2AD allowed (strUpper (strTrim ef)) df dt
                (extractRowInfoAD (resolveColsAD headers).dateCol tc
                  (resolveColsAD headers).enteCol 0 rows)).2))
    ∧ (∀ (allowed : Option (List String)) (efu : String) (df dt : Option PDate) (r : InfoRow),
        r.dateText = "" →
        classifyRowAD allowed efu df dt r = classifyRowAD allowed efu none none r) := by
  refine ⟨?_, ?_, ?_, ?_⟩
  · intro headers
    constructor
    · rw [resolveColsAD, resolveColsADAux_dateCol_none headers 0 _ rfl]
      cases headers.findIdx? isDataHeader <;> simp
    · rw [resolveColsPP, resolveColsPPAux_dateCol_none headers 0 _ rfl]
      cases headers.findIdx? isDataHeader <;> simp
  · intro headers h hD
    refine ⟨?_, ?_, ?_⟩
    · intro hT
      rw [resolveColsAD, resolveColsADAux_append]
      simp [resolveColsADAux, resolveColsADStep, hD, hT]
    · intro hT hE
      rw [resolveColsAD, resolveColsADAux_append]
      rcases hE with hE | hE <;>
        simp [resolveColsADAux, resolveColsADStep, hD, hT, hE]
    · intro hT hE hS hV
      rw [resolveColsAD, resolveColsADAux_append]
      simp [resolveColsADAux, resolveColsADStep, hD, hT, hE, hS, hV]
  · intro cf alive headers rows allowed ef df dt stopFlag dl
    constructor
    · intro htc
      simp [process_patient_all_dates, htc]
    · intro tc htc
      simp [process_patient_all_dates, htc]
  · intro allowed efu df dt r hdd
    have hp : parse_table_date "" = none := rfl
    unfold classifyRowAD
    rw [hdd]
    cases df <;> cases dt <;> simp [hp]

/-- Witness for C6: a TIPOLOGIA header appended after another header takes
the type column (last match wins). -/
theorem claim_C6_witness :
    (resolveColsAD (["TIPOLOGIA DOCUMENTO"] ++ ["TIPOLOGIA PRESCRIZIONE"])).tipoCol
      = some 1 :=
  (claim_C6.2.1 ["TIPOLOGIA DOCUMENTO"] "TIPOLOGIA PRESCRIZIONE" (by decide)).1 (by decide)

/-- C9 (code-bug evidence): process_patient consults the stop flag exactly
once, at entry (the stop_set parameter models that single is_set() read at
line 734); with the flag clear at entry, a two-row same-date table is fully
downloaded and no interrupted status is recorded, so a cancellation requested
between the two rows cannot abandon the second row — the source has no
per-row is_set() check in the most-recent-date loop, and
wait_for_manual_login and the re-login polling loops consult no stop flag at
all (the function does not even accept one, although gui.py passes
stop_event to it). -/
theorem claim_C9 :
    process_patient "Rossi" false true (.ok ())
        (.ok (["Data", "Tipologia documento"],
          [⟨["10/05/2024", "REFERTO A"]⟩, ⟨["10/05/2024", "REFERTO B"]⟩]))
        (some ["REFERTO"])
        (fun i t => downloadOkResult t ("dl/row" ++ Nat.repr i)) =
      ([downloadOkResult "REFERTO A" "dl/row0", downloadOkResult "REFERTO B" "dl/row1"],
        []) := by
  decide

end FSEpub
